import Mathlib

/-!
Shallow embedding of the mcp-terminal tool-routing and chat-loop core
(`src/utils/llmClient.ts`, `src/utils/mcpConnection.ts`, and the chat
command module), with theorems checking the natural-language
specification against it.

JSON values flowing through the program are modelled by a small mutual
inductive `Json`; the platform's `JSON.parse` is abstracted as a
`String → Option Json` parameter (the code only observes success or
failure of the parse), and `JSON.stringify` is modelled by
`Json.stringify`.
-/

mutual

inductive Json where
| jnull : Json
| jbool : Bool → Json
| jnum : Int → Json
| jstr : String → Json
| jarr : JsonElems → Json
| jobj : JsonMembers → Json

inductive JsonElems where
| enil : JsonElems
| econs : Json → JsonElems → JsonElems

inductive JsonMembers where
| mnil : JsonMembers
| mcons : String → Json → JsonMembers → JsonMembers

end

/-- Minimal JSON string escaping (quotes and backslashes). -/
def jsonEscapeChar (c : Char) : String :=
  if c = '"' then "\\\"" else if c = '\\' then "\\\\" else String.singleton c

def jsonEscape (s : String) : String :=
  String.join (s.data.map jsonEscapeChar)

mutual

/-- Model of `JSON.stringify` as used by the program. -/
def Json.stringify : Json → String
| Json.jnull => "null"
| Json.jbool b => if b then "true" else "false"
| Json.jnum n => toString n
| Json.jstr s => "\"" ++ jsonEscape s ++ "\""
| Json.jarr xs => "[" ++ JsonElems.stringifyElems xs ++ "]"
| Json.jobj ms => "\x7b" ++ JsonMembers.stringifyMembers ms ++ "\x7d"

def JsonElems.stringifyElems : JsonElems → String
| JsonElems.enil => ""
| JsonElems.econs x JsonElems.enil => Json.stringify x
| JsonElems.econs x xs => Json.stringify x ++ "," ++ JsonElems.stringifyElems xs

def JsonMembers.stringifyMembers : JsonMembers → String
| JsonMembers.mnil => ""
| JsonMembers.mcons k v JsonMembers.mnil =>
  "\"" ++ jsonEscape k ++ "\":" ++ Json.stringify v
| JsonMembers.mcons k v ms =>
  "\"" ++ jsonEscape k ++ "\":" ++ Json.stringify v ++ "," ++ JsonMembers.stringifyMembers ms

end

/-- JavaScript `typeof x === "object" ? JSON.stringify(x) : String(x)`:
`typeof` is `"object"` exactly for objects, arrays and `null`; other values
are converted with `String(...)`. -/
def Json.jsDisplay : Json → String
| Json.jstr s => s
| Json.jnum n => toString n
| Json.jbool b => if b then "true" else "false"
| j => Json.stringify j

/-- `ConversationMessage.content` in the source is `string | any[]`; the code
only distinguishes string content (`typeof msg.content === "string"`) from
structured content. -/
inductive Content where
| str : String → Content
| json : Json → Content

/-- `ConversationMessage` from `llmClient.ts` / the chat command module. -/
structure ConversationMessage where
  role : String
  content : Content

/-- One entry of `tool_calls` in an OpenAI response (id, function name, raw
argument string). -/
structure ToolCall where
  id : String
  name : String
  arguments : String
deriving DecidableEq

/-- `OpenAIMessage` union type from `llmClient.ts`: a chat message
(system/user/assistant, content possibly null, optional tool_calls) or a
tool-result message (`role: "tool"`, tool_call_id, content). -/
inductive OpenAIMessage where
| chat : String → Option String → Option (List ToolCall) → OpenAIMessage
| tool : String → String → OpenAIMessage
deriving DecidableEq

/-- Reference id carried by a tool-result message, if the message is one. -/
def toolMsgId : OpenAIMessage → Option String
| OpenAIMessage.tool cid _ => some cid
| _ => none

/-- `McpTool` from `llmClient.ts` (name, optional description, optional
parameter schema, optional owning server name). -/
structure McpTool where
  name : String
  description : Option String
  parameters : Option Json
  serverName : Option String

/-- One OpenAI function declaration built from an `McpTool`
(the `function` part of `{type: "function", function: {...}}`). -/
structure ToolDecl where
  name : String
  description : String
  parameters : Json

/-- An outgoing chat-completion request: messages plus the optional `tools`
field of the request body. -/
structure ModelRequest where
  messages : List OpenAIMessage
  tools : Option (List ToolDecl)

/-- The part of a chat-completion response the code consumes:
`choices[0].message.content` and `choices[0].message.tool_calls`. -/
structure ModelResponse where
  content : Option String
  tool_calls : List ToolCall

/-- A JSON-RPC style error thrown by the underlying MCP client library;
the code inspects `"code" in error` and `error.code === -32601`, and reads
`error.message`. -/
structure RpcError where
  code : Option Int
  message : String

/-- A raw tool entry as returned by the MCP client's `listTools`. -/
structure RawTool where
  name : String
  description : Option String
  inputSchema : Option Json
  parameters : Option Json

/-- A resource entry as returned by the MCP client's `listResources`. -/
structure McpResource where
  uri : String
  name : String

/-- The underlying MCP `Client`, abstracted by the responses it gives to the
three requests the connection wrapper issues. -/
structure McpClient where
  listToolsResponse : Except RpcError (List RawTool)
  listResourcesResponse : Except RpcError (List McpResource)
  callToolResponse : String → Json → Except RpcError Json

/-- `McpConnection` from `mcpConnection.ts`: a server name and a client that
is `null` until `connect` succeeds. -/
structure McpConnection where
  serverName : String
  client : Option McpClient

/-- Default parameters schema `{ type: "object", properties: {} }`. -/
def defaultToolSchema : Json :=
  Json.jobj (JsonMembers.mcons "type" (Json.jstr "object")
    (JsonMembers.mcons "properties" (Json.jobj JsonMembers.mnil) JsonMembers.mnil))

/-- The per-tool mapping inside `McpConnection.listTools`:
`description: tool.description || ""` and parameters from `inputSchema`,
then `parameters`, then the default schema. -/
def normalizeTool (t : RawTool) : McpTool :=
  { name := t.name
    description := some (t.description.getD "")
    parameters := some (t.inputSchema.getD (t.parameters.getD defaultToolSchema))
    serverName := none }

/-- `McpConnection.listTools`, also recording whether an error was logged:
returns `null` when the client is not connected; on a response it maps the
tools; on a thrown error it returns `null`, logging unless the error code is
-32601 (method not found). -/
def McpConnection.listToolsLogged (c : McpConnection) : Option (List McpTool) × Bool :=
  match c.client with
  | none => (none, false)
  | some cl =>
    match cl.listToolsResponse with
    | Except.ok ts => (some (ts.map normalizeTool), false)
    | Except.error e =>
      if e.code = some (-32601) then (none, false) else (none, true)

def McpConnection.listTools (c : McpConnection) : Option (List McpTool) :=
  (McpConnection.listToolsLogged c).1

/-- `McpConnection.listResources`, also recording whether an error was
logged; same null / -32601 handling as `listTools`. -/
def McpConnection.listResourcesLogged (c : McpConnection) :
    Option (List McpResource) × Bool :=
  match c.client with
  | none => (none, false)
  | some cl =>
    match cl.listResourcesResponse with
    | Except.ok rs => (some rs, false)
    | Except.error e =>
      if e.code = some (-32601) then (none, false) else (none, true)

def McpConnection.listResources (c : McpConnection) : Option (List McpResource) :=
  (McpConnection.listResourcesLogged c).1

/-- `McpConnection.callTool`: throws (`Except.error`) when the client is not
connected; forwards the call otherwise, remapping a -32601 error to a
"Tool ... not found on server ..." error and rethrowing anything else. -/
def McpConnection.callTool (c : McpConnection) (toolName : String) (args : Json) :
    Except String Json :=
  match c.client with
  | none => Except.error "MCP client is not connected"
  | some cl =>
    match cl.callToolResponse toolName args with
    | Except.ok r => Except.ok r
    | Except.error e =>
      if e.code = some (-32601) then
        Except.error ("Tool " ++ toolName ++ " not found on server " ++ c.serverName)
      else Except.error e.message

/-- The catalog contribution of one connection in the chat command's startup
loop: when `listTools` returns a non-empty list, every tool is tagged with
the connection's server name (`{...tool, serverName}`); otherwise nothing. -/
def toolsOf (c : McpConnection) : List McpTool :=
  match McpConnection.listTools c with
  | some ts =>
    if 0 < ts.length then ts.map (fun t => { t with serverName := some c.serverName })
    else []
  | none => []

/-- `allTools` accumulation in the chat command:
`allTools = [...allTools, ...mappedTools]` over all connections. -/
def buildAllTools (conns : List McpConnection) : List McpTool :=
  conns.foldl (fun acc c => acc ++ toolsOf c) []

/-- JavaScript `Map.set` on an association list: update in place when the key
exists, append otherwise. -/
def mapSet (m : List (String × String)) (k v : String) : List (String × String) :=
  if m.any (fun p => p.1 == k) then
    m.map (fun p => if p.1 == k then (k, v) else p)
  else m ++ [(k, v)]

/-- The `toolToServerMap` built alongside `allTools` in the chat command
(`toolToServerMap.set(tool.name, serverName)` per tool); the map is written
but never read by the dispatch path. -/
def toolToServerMap (conns : List McpConnection) : List (String × String) :=
  conns.foldl (fun m c =>
    match McpConnection.listTools c with
    | some ts =>
      if 0 < ts.length then ts.foldl (fun m t => mapSet m t.name c.serverName) m
      else m
    | none => m) []

def systemPrompt : String :=
  "You\x27re an AI assistant powered by MCP. You can help with various tasks using MCP tools."

def apologyMessage : String :=
  "I\x27m sorry, I encountered an error processing your request. Please try again."

def userMsg (s : String) : ConversationMessage := ⟨"user", Content.str s⟩

def assistantMsg (s : String) : ConversationMessage := ⟨"assistant", Content.str s⟩

/-- One user turn of the chat loop after a non-exit input: push the user
message, call the model (`llm` abstracts `callLLM` and may fail, modelling a
thrown error), and push either the response or the fixed apology message. -/
def chatStep (history : List ConversationMessage) (userInput : String)
    (llm : List ConversationMessage → Except String String) :
    List ConversationMessage :=
  let h1 := history ++ [userMsg userInput]
  match llm h1 with
  | Except.ok r => h1 ++ [assistantMsg r]
  | Except.error _ => h1 ++ [assistantMsg apologyMessage]

/-- `toLowerCase` on the user input, character by character. -/
def strToLower (s : String) : String :=
  String.mk (s.data.map Char.toLower)

/-- Case-insensitive exit keyword check from the chat loop. -/
def isExitInput (s : String) : Bool :=
  strToLower s == "exit" || strToLower s == "quit"

/-- The `while (chatActive)` loop, driven by a finite script of user inputs:
an exit keyword stops the loop, any other input runs `chatStep`. -/
def runChatLoop (llm : List ConversationMessage → Except String String) :
    List String → List ConversationMessage → List ConversationMessage
| [], history => history
| u :: rest, history =>
  if isExitInput u then history
  else runChatLoop llm rest (chatStep history u llm)

/-- Observable outcome of `startChatSession`: aborted before the loop for a
missing API key, aborted before the loop because no server connected, or the
loop ran to completion with a final history. -/
inductive SessionOutcome where
| abortedNoApiKey : SessionOutcome
| abortedNoConnections : SessionOutcome
| completed : List ConversationMessage → SessionOutcome

/-- `startChatSession`: checks the API key, connects (the established
connections are a parameter, abstracting `connectToAllServers`), returns
early when zero connections were established, and otherwise runs the chat
loop starting from the system message. -/
def startChatSession (hasApiKey : Bool) (connections : List McpConnection)
    (inputs : List String)
    (llm : List ConversationMessage → Except String String) : SessionOutcome :=
  if !hasApiKey then SessionOutcome.abortedNoApiKey
  else if connections.length = 0 then SessionOutcome.abortedNoConnections
  else SessionOutcome.completed (runChatLoop llm inputs [⟨"system", Content.str systemPrompt⟩])

/-- Role normalization in `callLLM`'s message formatting: any role other than
system/user/assistant is sent as `"user"`. -/
def formatRole (r : String) : String :=
  if r = "system" ∨ r = "user" ∨ r = "assistant" then r else "user"

/-- Content normalization in `callLLM`'s message formatting: string content
is forwarded, anything else is JSON-serialized. -/
def formatContent : Content → String
| Content.str s => s
| Content.json j => Json.stringify j

/-- `formattedMessages` in `callLLM`. -/
def formatMessages (history : List ConversationMessage) : List OpenAIMessage :=
  history.map (fun m =>
    OpenAIMessage.chat (formatRole m.role) (some (formatContent m.content)) none)

/-- JavaScript `x || dflt` for an optional string (empty string is falsy). -/
def jsOrString : Option String → String → String
| some s, d => if s = "" then d else s
| none, d => d

/-- Formatting one tool for the request body's `tools` field. -/
def toolDecl (t : McpTool) : ToolDecl :=
  { name := t.name
    description := jsOrString t.description ("Call the " ++ t.name ++ " tool")
    parameters := t.parameters.getD defaultToolSchema }

/-- `mcpTools.find((t) => t.name === toolName)`. -/
def findTool (mcpTools : List McpTool) (n : String) : Option McpTool :=
  mcpTools.find? (fun t => t.name == n)

/-- Serialized error payload `JSON.stringify({ error: message })` pushed as a
tool-result content on any dispatch failure. -/
def errContent (msg : String) : String :=
  Json.stringify (Json.jobj (JsonMembers.mcons "error" (Json.jstr msg) JsonMembers.mnil))

/-- The placeholder `{ _error: "Failed to parse arguments" }` substituted for
the arguments when `JSON.parse` fails. -/
def argParsePlaceholder : Json :=
  Json.jobj (JsonMembers.mcons "_error" (Json.jstr "Failed to parse arguments") JsonMembers.mnil)

/-- One iteration of the dispatch loop of `callLLM`: parse the arguments
(placeholder on failure), find the tool, its server name, the connection,
call the tool, and produce the pushed tool-result message together with the
fragment appended to the user-feedback `result` string. Every failure is
caught and becomes an error-payload tool message. -/
def processCall (mcpTools : List McpTool) (conns : List McpConnection)
    (parse : String → Option Json) (tc : ToolCall) : OpenAIMessage × String :=
  let toolArgs := (parse tc.arguments).getD argParsePlaceholder
  match findTool mcpTools tc.name with
  | none =>
    (OpenAIMessage.tool tc.id (errContent ("Tool " ++ tc.name ++ " not found")),
     "- Error using " ++ tc.name ++ ": " ++ ("Tool " ++ tc.name ++ " not found") ++ "\n")
  | some tool =>
    match tool.serverName with
    | none =>
      (OpenAIMessage.tool tc.id (errContent ("No server name found for tool " ++ tc.name)),
       "- Error using " ++ tc.name ++ ": " ++ ("No server name found for tool " ++ tc.name) ++ "\n")
    | some sn =>
      match conns.find? (fun c => c.serverName == sn) with
      | none =>
        (OpenAIMessage.tool tc.id (errContent ("No connection found for server " ++ sn)),
         "- Error using " ++ tc.name ++ ": " ++ ("No connection found for server " ++ sn) ++ "\n")
      | some conn =>
        match McpConnection.callTool conn tc.name toolArgs with
        | Except.error e =>
          (OpenAIMessage.tool tc.id (errContent e),
           "- Error using " ++ tc.name ++ ": " ++ e ++ "\n")
        | Except.ok r =>
          (OpenAIMessage.tool tc.id (Json.jsDisplay r),
           "- Used " ++ tc.name ++ " on server " ++ sn ++ "\n  Result: "
             ++ Json.jsDisplay r ++ "\n\n")

/-- The `for (const toolCall of toolCalls)` loop: starting from the already
accumulated messages and result text, each call pushes exactly one message
and appends one result fragment. -/
def processBatch (mcpTools : List McpTool) (conns : List McpConnection)
    (parse : String → Option Json) :
    List OpenAIMessage → String → List ToolCall → List OpenAIMessage × String
| msgs, acc, [] => (msgs, acc)
| msgs, acc, tc :: rest =>
  processBatch mcpTools conns parse
    (msgs ++ [(processCall mcpTools conns parse tc).1])
    (acc ++ (processCall mcpTools conns parse tc).2) rest

def batchIntroText : String := "I need to use some tools to help answer that:\n\n"

/-- The assistant message `{role: "assistant", content: null, tool_calls}`
placed into `updatedMessages` when the model requested tool calls. -/
def assistantToolCallMsg (calls : List ToolCall) : OpenAIMessage :=
  OpenAIMessage.chat "assistant" none (some calls)

/-- The first chat-completion request of `callLLM`: formatted history, and a
`tools` field exactly when `mcpTools` is non-empty. -/
def initialRequest (history : List ConversationMessage) (mcpTools : List McpTool) :
    ModelRequest :=
  { messages := formatMessages history
    tools := if 0 < mcpTools.length then some (mcpTools.map toolDecl) else none }

/-- State after the dispatch loop: `updatedMessages` (formatted history, then
the assistant tool-call message, then the pushed tool results) and the
accumulated `result` feedback text. -/
def batchState (history : List ConversationMessage) (mcpTools : List McpTool)
    (conns : List McpConnection) (parse : String → Option Json)
    (calls : List ToolCall) : List OpenAIMessage × String :=
  processBatch mcpTools conns parse
    (formatMessages history ++ [assistantToolCallMsg calls]) batchIntroText calls

/-- The follow-up chat-completion request: `updatedMessages`, no `tools`
field in the request body. -/
def followupRequest (history : List ConversationMessage) (mcpTools : List McpTool)
    (conns : List McpConnection) (parse : String → Option Json)
    (calls : List ToolCall) : ModelRequest :=
  { messages := (batchState history mcpTools conns parse calls).1
    tools := none }

/-- `callLLM`: issue the initial request; when the response carries tool
calls, dispatch the batch, issue exactly one follow-up request, and return
the tool-usage summary followed by the follow-up's content; otherwise return
the content directly. `respond` abstracts the chat-completion endpoint; the
returned list records every request issued. -/
def callLLM (history : List ConversationMessage) (mcpTools : List McpTool)
    (conns : List McpConnection) (parse : String → Option Json)
    (respond : ModelRequest → ModelResponse) : String × List ModelRequest :=
  let req1 := initialRequest history mcpTools
  let resp1 := respond req1
  if resp1.tool_calls.isEmpty then
    (resp1.content.getD "", [req1])
  else
    let st := batchState history mcpTools conns parse resp1.tool_calls
    let req2 : ModelRequest := ⟨st.1, none⟩
    let resp2 := respond req2
    ("Tools used:\n" ++ st.2 ++ "\n" ++ resp2.content.getD "", [req1, req2])

/-- The server a dispatched identifier is routed to: the `serverName` of the
first catalog entry whose name matches. -/
def routeServer (mcpTools : List McpTool) (n : String) : Option String :=
  (findTool mcpTools n).bind McpTool.serverName

example : Json.stringify (Json.jobj (JsonMembers.mcons "error" (Json.jstr "x") JsonMembers.mnil))
    = "\x7b\"error\":\"x\"\x7d" := rfl

/-- Every branch of the dispatch loop pushes a tool-result message carrying
the processed call's id. -/
theorem processCall_fst_shape (mt : List McpTool) (cs : List McpConnection)
    (p : String → Option Json) (tc : ToolCall) :
    toolMsgId (processCall mt cs p tc).1 = some tc.id := by
  unfold processCall
  dsimp only
  repeat' split
  all_goals rfl

/-- Concatenation of a list of strings. -/
def strConcat : List String → String
| [] => ""
| s :: rest => s ++ strConcat rest

/-- Unrolling the dispatch loop: it appends exactly the per-call messages, in
request order, and concatenates the per-call result fragments. -/
theorem processBatch_eq (mt : List McpTool) (cs : List McpConnection)
    (p : String → Option Json) (calls : List ToolCall) :
    ∀ (msgs : List OpenAIMessage) (acc : String),
      processBatch mt cs p msgs acc calls
        = (msgs ++ calls.map (fun tc => (processCall mt cs p tc).1),
           acc ++ strConcat (calls.map (fun tc => (processCall mt cs p tc).2))) := by
  induction calls with
  | nil => intro msgs acc; simp [processBatch, strConcat]
  | cons tc rest ih =>
    intro msgs acc
    rw [processBatch, ih]
    simp [strConcat, List.append_assoc, String.append_assoc]

/-- Accumulating with `++` over a fold is concatenation of the images. -/
theorem foldl_append_flatten (g : McpConnection → List McpTool) (conns : List McpConnection) :
    ∀ init : List McpTool,
      conns.foldl (fun acc c => acc ++ g c) init = init ++ (conns.map g).flatten := by
  induction conns with
  | nil => intro init; simp
  | cons c cs ih => intro init; simp [List.foldl, ih, List.append_assoc]

theorem buildAllTools_flatten (conns : List McpConnection) :
    buildAllTools conns = (conns.map toolsOf).flatten := by
  unfold buildAllTools
  rw [foldl_append_flatten]
  simp

/-- Every catalog entry contributed by a connection is tagged with that
connection's server name. -/
theorem toolsOf_serverName (c : McpConnection) (t : McpTool) (h : t ∈ toolsOf c) :
    t.serverName = some c.serverName := by
  unfold toolsOf at h
  split at h
  · split at h
    · obtain ⟨t0, _, rfl⟩ := List.mem_map.1 h
      rfl
    · simp at h
  · simp at h

theorem find?_append_some {α : Type} (p : α → Bool) (l₁ l₂ : List α) (a : α)
    (h : l₁.find? p = some a) : (l₁ ++ l₂).find? p = some a := by
  induction l₁ with
  | nil => simp [List.find?] at h
  | cons x xs ih =>
    by_cases hx : p x
    · rw [List.find?_cons_of_pos _ hx] at h
      simpa [List.find?_cons_of_pos _ hx] using h
    · rw [List.find?_cons_of_neg _ (by simpa using hx)] at h
      simpa [List.find?_cons_of_neg _ (by simpa using hx)] using ih h

/-- Length of the serialized `{ error: msg }` payload. -/
theorem errContent_length (m : String) :
    (errContent m).length = 12 + (jsonEscape m).length := by
  have h : errContent m
      = "\x7b" ++ ("\"" ++ jsonEscape "error" ++ "\":"
          ++ ("\"" ++ jsonEscape m ++ "\"")) ++ "\x7d" := rfl
  rw [h]
  have he : jsonEscape "error" = "error" := rfl
  rw [he]
  simp only [String.length_append]
  have l1 : ("\x7b" : String).length = 1 := rfl
  have l2 : ("\"" : String).length = 1 := rfl
  have l3 : ("error" : String).length = 5 := rfl
  have l4 : ("\":" : String).length = 2 := rfl
  have l5 : ("\x7d" : String).length = 1 := rfl
  omega

/-- C1: processing a batch of k requested tool calls appends exactly k
tool-result messages to the accumulated messages, leaving the prefix
untouched; the i-th appended message is a tool-result message carrying the
i-th requested call's id, for every parse function, catalog and connection
set — in particular also when individual calls fail. -/
theorem batch_appends_one_result_per_call (mt : List McpTool)
    (cs : List McpConnection) (p : String → Option Json)
    (msgs : List OpenAIMessage) (acc : String) (calls : List ToolCall) :
    (processBatch mt cs p msgs acc calls).1.length = msgs.length + calls.length ∧
    (processBatch mt cs p msgs acc calls).1.take msgs.length = msgs ∧
    ∀ i : Nat,
      (((processBatch mt cs p msgs acc calls).1.drop msgs.length)[i]?).bind toolMsgId
        = (calls[i]?).map ToolCall.id := by
  rw [processBatch_eq]
  refine ⟨by simp, by simp [List.take_left], ?_⟩
  intro i
  rw [List.drop_left]
  rw [List.getElem?_map]
  cases h : calls[i]? with
  | none => rfl
  | some tc => simp [processCall_fst_shape]

/-- C3: when the requested identifier is absent from the aggregated catalog,
the dispatch iteration returns (never throws) a tool-result message for the
call's id whose content is the serialized `{ error: "Tool ... not found" }`
payload, together with the corresponding feedback fragment. -/
theorem unknown_tool_yields_error_result (mt : List McpTool)
    (cs : List McpConnection) (p : String → Option Json) (tc : ToolCall)
    (h : findTool mt tc.name = none) :
    processCall mt cs p tc
      = (OpenAIMessage.tool tc.id (errContent ("Tool " ++ tc.name ++ " not found")),
         "- Error using " ++ tc.name ++ ": "
           ++ ("Tool " ++ tc.name ++ " not found") ++ "\n") := by
  unfold processCall
  rw [h]

theorem unknown_tool_yields_error_result_witness :
    processCall [] [] (fun _ => none) ⟨"abc", "missing", "x"⟩
      = (OpenAIMessage.tool "abc" (errContent ("Tool " ++ "missing" ++ " not found")),
         "- Error using " ++ "missing" ++ ": "
           ++ ("Tool " ++ "missing" ++ " not found") ++ "\n") :=
  unknown_tool_yields_error_result [] [] (fun _ => none) ⟨"abc", "missing", "x"⟩ rfl

/-- C9: the i-th formatted message keeps a recognized role unchanged, maps
any other role to "user", forwards string content unchanged and
JSON-serializes structured content. -/
theorem format_messages_normalization (history : List ConversationMessage)
    (i : Nat) (m : ConversationMessage) (hi : history[i]? = some m) :
    ∃ r s, (formatMessages history)[i]? = some (OpenAIMessage.chat r (some s) none) ∧
      ((m.role = "system" ∨ m.role = "user" ∨ m.role = "assistant") → r = m.role) ∧
      (¬(m.role = "system" ∨ m.role = "user" ∨ m.role = "assistant") → r = "user") ∧
      (∀ t, m.content = Content.str t → s = t) ∧
      (∀ j, m.content = Content.json j → s = Json.stringify j) := by
  refine ⟨formatRole m.role, formatContent m.content, ?_, ?_, ?_, ?_, ?_⟩
  · unfold formatMessages
    rw [List.getElem?_map, hi]
    rfl
  · intro h
    unfold formatRole
    rw [if_pos h]
  · intro h
    unfold formatRole
    rw [if_neg h]
  · intro t ht
    rw [ht]
    rfl
  · intro j hj
    rw [hj]
    rfl

/-- A connected client exposing one tool `"t"` whose invocations all return
the fixed result `r`. -/
def okClient (r : Json) : McpClient :=
  { listToolsResponse := Except.ok [⟨"t", none, none, none⟩]
    listResourcesResponse := Except.ok []
    callToolResponse := fun _ _ => Except.ok r }

def connA : McpConnection := ⟨"A", some (okClient (Json.jstr "fromA"))⟩

def connB : McpConnection := ⟨"B", some (okClient (Json.jstr "fromB"))⟩

def pEmptyObj : String → Option Json := fun _ => some (Json.jobj JsonMembers.mnil)

/-- C2 counterexample: connections A then B both expose tool "t". The
aggregated catalog keeps both entries (2 = sum of contributions in spite of
the collision), and dispatching "t" routes to the FIRST connection that
listed it (A) — not to the last one (B) as the claim states. -/
theorem last_connection_wins_routing_cex :
    (buildAllTools [connA, connB]).length = 2 ∧
    routeServer (buildAllTools [connA, connB]) "t" = some "A" ∧
    ¬ routeServer (buildAllTools [connA, connB]) "t" = some "B" ∧
    (processCall (buildAllTools [connA, connB]) [connA, connB] pEmptyObj
        ⟨"c1", "t", "\x7b\x7d"⟩).1
      = OpenAIMessage.tool "c1" "fromA" := by
  refine ⟨?_, ?_, ?_, ?_⟩ <;> decide

/-- C2 amended: the aggregated catalog is a concatenated list holding
sum(T_i) entries even when identifiers collide, and a dispatched identifier
is routed to the first connection, in processing order, that listed it
(lookup scans the concatenation from the front). -/
theorem catalog_concat_and_first_wins_routing :
    (∀ conns : List McpConnection,
      (buildAllTools conns).length = (conns.map (fun c => (toolsOf c).length)).sum) ∧
    (∀ (c : McpConnection) (cs : List McpConnection) (n : String) (t : McpTool),
      (toolsOf c).find? (fun t0 => t0.name == n) = some t →
      routeServer (buildAllTools (c :: cs)) n = some c.serverName) := by
  constructor
  · intro conns
    rw [buildAllTools_flatten, List.length_flatten, List.map_map]
    rfl
  · intro c cs n t h
    have hmem : t ∈ toolsOf c := List.mem_of_find?_eq_some h
    have hsn := toolsOf_serverName c t hmem
    have hcat : buildAllTools (c :: cs) = toolsOf c ++ buildAllTools cs := by
      rw [buildAllTools_flatten, buildAllTools_flatten]
      simp
    unfold routeServer findTool
    rw [hcat, find?_append_some _ _ _ _ h]
    simp [hsn]

theorem catalog_concat_and_first_wins_routing_witness :
    (buildAllTools [connA, connB]).length
        = ([connA, connB].map (fun c => (toolsOf c).length)).sum ∧
    routeServer (buildAllTools [connA, connB]) "t" = some connA.serverName :=
  ⟨catalog_concat_and_first_wins_routing.1 [connA, connB],
   catalog_concat_and_first_wins_routing.2 connA [connB] "t"
     ⟨"t", some "", some defaultToolSchema, some "A"⟩ rfl⟩

def history5 : List ConversationMessage := [⟨"user", Content.str "hi"⟩]

def calls5 : List ToolCall := [⟨"c1", "t", "\x7b\x7d"⟩]

def mt5 : List McpTool := [⟨"t", some "", none, some "A"⟩]

/-- C5 counterexample: with one successful tool call, the follow-up message
list is NOT the formatted history followed by the tool results and then the
assistant tool-call message (as the claim's "append after processing"
ordering would give); the assistant tool-call message is placed before the
batch results. -/
theorem assistant_msg_appended_after_results_cex :
    ¬ (batchState history5 mt5 [connA] pEmptyObj calls5).1
        = formatMessages history5
          ++ calls5.map (fun tc => (processCall mt5 [connA] pEmptyObj tc).1)
          ++ [assistantToolCallMsg calls5] ∧
    (batchState history5 mt5 [connA] pEmptyObj calls5).1
        = formatMessages history5 ++ [assistantToolCallMsg calls5]
          ++ calls5.map (fun tc => (processCall mt5 [connA] pEmptyObj tc).1) := by
  constructor
  · decide
  · decide

/-- C5 amended: the original assistant tool-call-request message is appended
to the follow-up history BEFORE the batch is processed, so the follow-up
request's messages are the formatted history, then the assistant tool-call
message, then the k tool results in order; only then is the follow-up
request issued. -/
theorem assistant_msg_appended_before_batch (history : List ConversationMessage)
    (mt : List McpTool) (cs : List McpConnection) (p : String → Option Json)
    (calls : List ToolCall) :
    (followupRequest history mt cs p calls).messages
      = formatMessages history ++ [assistantToolCallMsg calls]
        ++ calls.map (fun tc => (processCall mt cs p tc).1) := by
  unfold followupRequest batchState
  rw [processBatch_eq]

def connS : McpConnection := ⟨"S", some (okClient (Json.jstr "ok"))⟩

def mt7 : List McpTool := [⟨"t", some "", none, some "S"⟩]

def pFail : String → Option Json := fun _ => none

def tc7 : ToolCall := ⟨"c1", "t", "notjson"⟩

/-- C7 counterexample: the arguments of call c1 fail to parse, yet the call
is dispatched with the placeholder as arguments and succeeds, so its
tool-result content is the successful result "ok" — which is not the
serialized `{ error: ... }` payload of any message: the parse failure is not
captured as a tool-result error payload. -/
theorem parse_failure_becomes_error_payload_cex :
    pFail "notjson" = none ∧
    (processCall mt7 [connS] pFail tc7).1 = OpenAIMessage.tool "c1" "ok" ∧
    ∀ m : String, ¬ errContent m = "ok" := by
  refine ⟨rfl, by decide, ?_⟩
  intro m h
  have hl := congrArg String.length h
  rw [errContent_length] at hl
  have h2 : ("ok" : String).length = 2 := rfl
  omega

/-- C7 amended: when the raw argument payload fails to parse, the
placeholder `{ _error: "Failed to parse arguments" }` is substituted as the
call's ARGUMENTS and dispatch proceeds normally with it; the batch is not
aborted and the parse failure never escapes: the call still produces exactly
one tool-result message for its id, carrying the dispatch outcome (which may
be a success payload). -/
theorem parse_failure_substitutes_placeholder_args (mt : List McpTool)
    (cs : List McpConnection) (p : String → Option Json) (tc : ToolCall)
    (h : p tc.arguments = none) :
    processCall mt cs p tc
        = processCall mt cs (fun _ => some argParsePlaceholder) tc ∧
    toolMsgId (processCall mt cs p tc).1 = some tc.id := by
  constructor
  · unfold processCall
    rw [h]
    rfl
  · exact processCall_fst_shape mt cs p tc

theorem parse_failure_substitutes_placeholder_args_witness :
    processCall mt7 [connS] pFail tc7
        = processCall mt7 [connS] (fun _ => some argParsePlaceholder) tc7 ∧
    toolMsgId (processCall mt7 [connS] pFail tc7).1 = some "c1" :=
  parse_failure_substitutes_placeholder_args mt7 [connS] pFail tc7 rfl

/-- C4: when the initial response requests tool calls, exactly one follow-up
request is issued — with the augmented history and no `tools` field — and
the turn's answer is the tool-usage summary followed by the follow-up
response's content; the follow-up's own tool calls are never dispatched and
no third request is made (single-level resolution). -/
theorem single_followup_without_tools (history : List ConversationMessage)
    (mt : List McpTool) (cs : List McpConnection) (p : String → Option Json)
    (respond : ModelRequest → ModelResponse)
    (h : ¬ (respond (initialRequest history mt)).tool_calls = []) :
    callLLM history mt cs p respond
      = ("Tools used:\n"
           ++ (batchState history mt cs p
                 (respond (initialRequest history mt)).tool_calls).2
           ++ "\n"
           ++ ((respond (followupRequest history mt cs p
                 (respond (initialRequest history mt)).tool_calls)).content.getD ""),
         [initialRequest history mt,
          followupRequest history mt cs p
            (respond (initialRequest history mt)).tool_calls]) ∧
    (followupRequest history mt cs p
        (respond (initialRequest history mt)).tool_calls).tools = none := by
  constructor
  · unfold callLLM
    rw [if_neg (by simp [List.isEmpty_iff, h])]
    rfl
  · rfl

def respond4 : ModelRequest → ModelResponse :=
  fun r =>
    match r.tools with
    | some _ => ⟨some "first", calls5⟩
    | none => ⟨some "final", []⟩

theorem single_followup_without_tools_witness :
    callLLM history5 mt5 [connA] pEmptyObj respond4
      = ("Tools used:\n" ++ (batchState history5 mt5 [connA] pEmptyObj calls5).2
           ++ "\n" ++ "final",
         [initialRequest history5 mt5,
          followupRequest history5 mt5 [connA] pEmptyObj calls5]) ∧
    (followupRequest history5 mt5 [connA] pEmptyObj calls5).tools = none :=
  single_followup_without_tools history5 mt5 [connA] pEmptyObj respond4 (by decide)

/-- C6: when the model call of a non-exit user turn fails, the orchestrator
appends the just-read user message and then the fixed apology message as the
assistant's turn, leaving the earlier history unchanged, and the chat loop
continues with that history instead of terminating. -/
theorem model_failure_appends_apology (history : List ConversationMessage)
    (u : String) (llm : List ConversationMessage → Except String String)
    (e : String) (rest : List String)
    (hu : isExitInput u = false)
    (h : llm (history ++ [userMsg u]) = Except.error e) :
    chatStep history u llm = history ++ [userMsg u, assistantMsg apologyMessage] ∧
    runChatLoop llm (u :: rest) history
      = runChatLoop llm rest (history ++ [userMsg u, assistantMsg apologyMessage]) := by
  have h1 : chatStep history u llm
      = history ++ [userMsg u, assistantMsg apologyMessage] := by
    unfold chatStep
    dsimp only
    rw [h]
    simp
  refine ⟨h1, ?_⟩
  rw [runChatLoop, if_neg (by simp [hu]), h1]

theorem model_failure_appends_apology_witness :
    chatStep [] "hello" (fun _ => Except.error "boom")
        = [] ++ [userMsg "hello", assistantMsg apologyMessage] ∧
    runChatLoop (fun _ => Except.error "boom") ["hello"] []
        = runChatLoop (fun _ => Except.error "boom") []
            ([] ++ [userMsg "hello", assistantMsg apologyMessage]) :=
  model_failure_appends_apology [] "hello" (fun _ => Except.error "boom") "boom" []
    (by decide) rfl

/-- C8: with zero established connections the session aborts before the
user-input loop: the outcome is the fatal no-connections abort (under the
API-key check having passed), and for no inputs and no model behaviour does
the session ever reach a completed loop run. -/
theorem zero_connections_never_enter_loop (inputs : List String)
    (llm : List ConversationMessage → Except String String) :
    startChatSession true [] inputs llm = SessionOutcome.abortedNoConnections ∧
    ∀ (k : Bool) (h : List ConversationMessage),
      ¬ startChatSession k [] inputs llm = SessionOutcome.completed h := by
  refine ⟨rfl, ?_⟩
  intro k h hc
  cases k <;> simp [startChatSession] at hc

theorem zero_connections_never_enter_loop_witness :
    startChatSession true [] [] (fun _ => Except.ok "hi")
        = SessionOutcome.abortedNoConnections ∧
    ¬ startChatSession true [] [] (fun _ => Except.ok "hi")
        = SessionOutcome.completed [] :=
  ⟨(zero_connections_never_enter_loop [] (fun _ => Except.ok "hi")).1,
   (zero_connections_never_enter_loop [] (fun _ => Except.ok "hi")).2 true []⟩

/-- C10: with no established client, `listTools` and `listResources` return
null (without logging an error) while `callTool` always throws; and a
-32601 "method not found" response makes `listTools`/`listResources` return
null without logging it as an error. -/
theorem disconnected_list_null_call_throws :
    (∀ (c : McpConnection), c.client = none →
      McpConnection.listTools c = none ∧
      McpConnection.listResources c = none ∧
      ∀ (n : String) (a : Json),
        McpConnection.callTool c n a = Except.error "MCP client is not connected") ∧
    (∀ (c : McpConnection) (cl : McpClient) (e : RpcError),
      c.client = some cl → cl.listToolsResponse = Except.error e →
      e.code = some (-32601) →
      McpConnection.listToolsLogged c = (none, false)) ∧
    (∀ (c : McpConnection) (cl : McpClient) (e : RpcError),
      c.client = some cl → cl.listResourcesResponse = Except.error e →
      e.code = some (-32601) →
      McpConnection.listResourcesLogged c = (none, false)) := by
  refine ⟨?_, ?_, ?_⟩
  · intro c hc
    refine ⟨?_, ?_, ?_⟩
    · unfold McpConnection.listTools McpConnection.listToolsLogged
      rw [hc]
    · unfold McpConnection.listResources McpConnection.listResourcesLogged
      rw [hc]
    · intro n a
      unfold McpConnection.callTool
      rw [hc]
  · intro c cl e hc he hcode
    unfold McpConnection.listToolsLogged
    rw [hc]
    dsimp only
    rw [he]
    dsimp only
    rw [if_pos hcode]
  · intro c cl e hc he hcode
    unfold McpConnection.listResourcesLogged
    rw [hc]
    dsimp only
    rw [he]
    dsimp only
    rw [if_pos hcode]

def connNone : McpConnection := ⟨"X", none⟩

def clientNF : McpClient :=
  { listToolsResponse := Except.error ⟨some (-32601), "method not found"⟩
    listResourcesResponse := Except.error ⟨some (-32601), "method not found"⟩
    callToolResponse := fun _ _ => Except.ok Json.jnull }

def connNF : McpConnection := ⟨"Y", some clientNF⟩

theorem disconnected_list_null_call_throws_witness :
    McpConnection.listTools connNone = none ∧
    McpConnection.listResources connNone = none ∧
    McpConnection.callTool connNone "t" Json.jnull
        = Except.error "MCP client is not connected" ∧
    McpConnection.listToolsLogged connNF = (none, false) ∧
    McpConnection.listResourcesLogged connNF = (none, false) :=
  ⟨(disconnected_list_null_call_throws.1 connNone rfl).1,
   (disconnected_list_null_call_throws.1 connNone rfl).2.1,
   (disconnected_list_null_call_throws.1 connNone rfl).2.2 "t" Json.jnull,
   disconnected_list_null_call_throws.2.1 connNF clientNF
     ⟨some (-32601), "method not found"⟩ rfl rfl rfl,
   disconnected_list_null_call_throws.2.2 connNF clientNF
     ⟨some (-32601), "method not found"⟩ rfl rfl rfl⟩

theorem format_messages_normalization_witness :
    ∃ r s, (formatMessages [⟨"tool", Content.json (Json.jnum 3)⟩])[0]?
        = some (OpenAIMessage.chat r (some s) none) ∧
      ((("tool" : String) = "system" ∨ ("tool" : String) = "user"
          ∨ ("tool" : String) = "assistant") → r = "tool") ∧
      (¬(("tool" : String) = "system" ∨ ("tool" : String) = "user"
          ∨ ("tool" : String) = "assistant") → r = "user") ∧
      (∀ t, Content.json (Json.jnum 3) = Content.str t → s = t) ∧
      (∀ j, Content.json (Json.jnum 3) = Content.json j → s = Json.stringify j) :=
  format_messages_normalization [⟨"tool", Content.json (Json.jnum 3)⟩] 0
    ⟨"tool", Content.json (Json.jnum 3)⟩ rfl
